/-
  Verification of the travel-tourism-portal booking core.

  Shallow embedding of the data model (src/models.py), the form validation
  (src/forms.py) and the route handlers (src/app.py) of the portal, followed
  by theorems checking the specified properties of the booking lifecycle,
  the slot inventory, the access gates and the package catalog.

  Modelling conventions:
  * strings are lists of characters (`Str`);
  * SQL integer columns are `Int`, except `number_of_travelers`, a count
    validated to lie in 1..50 at its only write site, which is `Nat`;
  * the `Float` currency columns (`price`, `total_amount`) are modelled as
    exact rationals, so `price * travelers` is the mathematical product;
  * the database session is a `DB` record of the three tables; the ORM row
    update on a fetched object is an update of the row with that primary
    key; the autoincrement primary keys are the counters `next_pid` /
    `next_bid`; commit/rollback pairs around a single mutation are the
    mutation itself (exception branches roll back to the unchanged state);
  * timestamp columns (`created_at`, `booking_date`) and the unused
    `payment_status` placeholder carry no logic and are not modelled.
-/
import Mathlib

namespace Portal

/-- Strings of the model: lists of characters. -/
abbrev Str := List Char

/-- Role column `User.role` (src/models.py): holds `'user'` or `'admin'`. -/
inductive Role where
  | user
  | admin
  deriving Repr, DecidableEq

/-- Booking status (src/models.py): `'pending'`, `'confirmed'`, `'cancelled'`,
`'completed'`. -/
inductive BStatus where
  | pending
  | confirmed
  | cancelled
  | completed
  deriving Repr, DecidableEq

/-- Observable outcome of a route handler: redirects, flashed error
categories and success, abstracted from the rendered pages. -/
inductive Outcome where
  | success
  | redirectLogin
  | forbidden
  | unauthorized
  | invalidState
  | notFound
  | validationError
  | insufficientInventory
  | conflict
  deriving Repr, DecidableEq

/-- Row of the `users` table (src/models.py, class `User`). The password hash is an
opaque trusted utility and is not modelled. -/
structure User where
  uid : Nat
  username : Str
  email : Str
  phone : Str
  role : Role
  deriving Repr, DecidableEq

/-- Row of the `tour_packages` table (src/models.py, class `TourPackage`). -/
structure TourPackage where
  pid : Nat
  name : Str
  destination : Str
  description : Str
  duration : Int
  price : ℚ
  image_url : Str
  available_slots : Int
  category : Str
  highlights : Str
  includes : Str
  excludes : Str
  deriving Repr, DecidableEq

/-- Row of the `bookings` table (src/models.py, class `Booking`). `travel_date` is a
day ordinal (the `Date` column); `total_amount` is the stored snapshot. -/
structure Booking where
  bid : Nat
  user_id : Nat
  package_id : Nat
  travel_date : Int
  number_of_travelers : Nat
  total_amount : ℚ
  status : BStatus
  special_requests : Str
  deriving Repr, DecidableEq

/-- The database session state: the three tables plus the autoincrement
counters for the two primary keys the routes create rows with. -/
structure DB where
  users : List User
  packages : List TourPackage
  bookings : List Booking
  next_pid : Nat
  next_bid : Nat
  deriving Repr, DecidableEq

/-- The ORM lookup `Model.query.get(k)`: the row with primary key `k`. -/
def findBy {α : Type} (key : α → Nat) (k : Nat) : List α → Option α
  | [] => none
  | x :: t => if key x == k then some x else findBy key k t

/-- An ORM row update: the row `Model.query.get(k)` fetched (the first row
with primary key `k`) is mutated by `f` and committed; every other row is
untouched. -/
def updateBy {α : Type} (key : α → Nat) (k : Nat) (f : α → α) :
    List α → List α
  | [] => []
  | x :: t => if key x == k then f x :: t else x :: updateBy key k f t

/-! ## Forms (src/forms.py)

WTForms semantics embedded here: `DataRequired` fails on *falsy* data, so it
rejects `None`, the empty string, the integer `0` and the float `0.0`;
`NumberRange(min, max)` is an inclusive range check; `Length(min, max)` is an
inclusive length check; `SelectField` additionally rejects a value that is
not among its declared choices. -/

/-- Data submitted through `BookingForm` (src/forms.py). The `DateField` and
`IntegerField` values are already parsed. -/
structure BookingFormData where
  travel_date : Int
  number_of_travelers : Nat
  special_requests : Str
  deriving Repr, DecidableEq

/-- Validation of `BookingForm` (src/forms.py): `DataRequired` on the traveler
count (0 is falsy), `NumberRange(1, 50)` on the traveler count,
`Length(max=500)` on the special requests, and the custom
`validate_travel_date`, which raises exactly when
`travel_date.data < date.today()`. -/
def validateBookingForm (f : BookingFormData) (today : Int) : Bool :=
  (f.number_of_travelers != 0) &&
  (decide (1 ≤ f.number_of_travelers) && decide (f.number_of_travelers ≤ 50)) &&
  decide (f.special_requests.length ≤ 500) &&
  !(decide (f.travel_date < today))

/-- The `choices` of the `category` field of `PackageForm` (src/forms.py). -/
def packageCategories : List Str :=
  ["Adventure".toList, "Beach".toList, "Cultural".toList, "Luxury".toList,
   "Wildlife".toList, "Pilgrimage".toList, "Hill Station".toList]

/-- Data submitted through `PackageForm` (src/forms.py). -/
structure PackageFormData where
  name : Str
  destination : Str
  description : Str
  duration : Int
  price : ℚ
  available_slots : Int
  category : Str
  image_url : Str
  highlights : Str
  includes : Str
  excludes : Str
  deriving Repr, DecidableEq

/-- Validation of `PackageForm` (src/forms.py): `DataRequired` plus
`Length(3,200)` on name, `Length(2,100)` on destination, `Length(20,2000)`
on description; `DataRequired` plus `NumberRange(1,365)` on duration;
`DataRequired` plus `NumberRange(min=0)` on price; `DataRequired` plus
`NumberRange(0,1000)` on available_slots; `DataRequired` plus the choice
check on category; `Length` caps on the free-text fields. Note that
`DataRequired` rejects the falsy numbers `0` and `0.0` even where the
`NumberRange` would allow them. -/
def validatePackageForm (f : PackageFormData) : Bool :=
  (!f.name.isEmpty && decide (3 ≤ f.name.length) && decide (f.name.length ≤ 200)) &&
  (!f.destination.isEmpty && decide (2 ≤ f.destination.length) &&
    decide (f.destination.length ≤ 100)) &&
  (!f.description.isEmpty && decide (20 ≤ f.description.length) &&
    decide (f.description.length ≤ 2000)) &&
  ((f.duration != 0) && decide (1 ≤ f.duration) && decide (f.duration ≤ 365)) &&
  ((f.price != 0) && decide (0 ≤ f.price)) &&
  ((f.available_slots != 0) && decide (0 ≤ f.available_slots) &&
    decide (f.available_slots ≤ 1000)) &&
  (!f.category.isEmpty && packageCategories.contains f.category) &&
  decide (f.image_url.length ≤ 500) &&
  decide (f.highlights.length ≤ 1000) &&
  decide (f.includes.length ≤ 1000) &&
  decide (f.excludes.length ≤ 1000)

/-- Data read from `PackageSearchForm` (src/forms.py) by the `packages` route.
The route never validates this form, so raw values are used; an absent or
unparsable float field is `none`, an absent text/select field is the empty
string (falsy in the route's guards). -/
structure PackageSearchFormData where
  keyword : Str
  category : Str
  min_price : Option ℚ
  max_price : Option ℚ
  duration : Str
  deriving Repr, DecidableEq

/-! ## Route handlers (src/app.py) -/

/-- SQL `LIKE` pattern matching (SQLite semantics): the pattern must match
the whole string, `%` matches any sequence of characters (including the
empty one), `_` matches exactly one character, and every other pattern
character matches itself. Structural recursion on the pattern: the `%`
case tries every suffix of the string. -/
def likeMatch : Str → Str → Bool
  | [], s => s.isEmpty
  | '%' :: ps, s => s.tails.any (fun t => likeMatch ps t)
  | '_' :: ps, s =>
    match s with
    | [] => false
    | _ :: t => likeMatch ps t
  | c :: ps, s =>
    match s with
    | [] => false
    | x :: t => x == c && likeMatch ps t

/-- The route's keyword test `column.like(f"%{kw}%")` (src/app.py:150-156)
under SQLite's ASCII-only case folding: the raw keyword is interpolated
into the pattern unescaped, so `%` and `_` characters inside the keyword
remain live SQL wildcards. -/
def ciLike (hay kw : Str) : Bool :=
  likeMatch ('%' :: (kw.map Char.toLower ++ ['%'])) (hay.map Char.toLower)

/-- Literal substring containment (no wildcard reading of `pat`). -/
def substrContains (hay pat : Str) : Bool :=
  match hay with
  | [] => pat.isEmpty
  | _ :: rest => pat.isPrefixOf hay || substrContains rest pat

/-- Case-insensitive substring containment: the keyword contract exactly as
the spec words it ("case-insensitive substring match against name OR
destination"), kept for comparison against the route's `LIKE` behavior. -/
def ciSubstr (hay pat : Str) : Bool :=
  substrContains (hay.map Char.toLower) (pat.map Char.toLower)

/-- The `packages` route (src/app.py:127-184): starts from the full package
query and narrows it by each provided filter in turn — keyword against name
OR destination via `LIKE`, category equality, `price >= min`, `price <= max`,
and the duration buckets via inclusive `between` (`15+` is `duration >= 15`).
A falsy (empty) text field or an absent float field adds no filter, and so
does a non-bucket duration value (the `if/elif` chain has no `else`). -/
def packages (db : DB) (f : PackageSearchFormData) : List TourPackage :=
  let q := db.packages
  let q := if f.keyword != [] then
      q.filter (fun p => ciLike p.name f.keyword || ciLike p.destination f.keyword)
    else q
  let q := if f.category != [] then
      q.filter (fun p => p.category == f.category)
    else q
  let q := match f.min_price with
    | some m => q.filter (fun p => decide (m ≤ p.price))
    | none => q
  let q := match f.max_price with
    | some m => q.filter (fun p => decide (p.price ≤ m))
    | none => q
  let q := if f.duration != [] then
      if f.duration == "1-3".toList then
        q.filter (fun p => decide (1 ≤ p.duration) && decide (p.duration ≤ 3))
      else if f.duration == "4-7".toList then
        q.filter (fun p => decide (4 ≤ p.duration) && decide (p.duration ≤ 7))
      else if f.duration == "8-14".toList then
        q.filter (fun p => decide (8 ≤ p.duration) && decide (p.duration ≤ 14))
      else if f.duration == "15+".toList then
        q.filter (fun p => decide (15 ≤ p.duration))
      else q
    else q
  q

/-- Body of the `book_package` route after `login_required` (src/app.py:369-432),
with `uid = session['user_id']`: fetch the package or 404; validate the
booking form; fail with the insufficient-slots flash when
`package.available_slots < form.number_of_travelers.data`; otherwise create
the booking (status `'pending'`, `total_amount = package.price *
form.number_of_travelers.data`) and decrement `package.available_slots` by
the traveler count, committing both together. -/
def book_package_core (db : DB) (uid : Nat) (package_id : Nat)
    (f : BookingFormData) (today : Int) : DB × Outcome :=
  match findBy TourPackage.pid package_id db.packages with
  | none => (db, Outcome.notFound)
  | some package =>
    if validateBookingForm f today then
      if package.available_slots < (f.number_of_travelers : Int) then
        (db, Outcome.insufficientInventory)
      else
        let total : ℚ := package.price * (f.number_of_travelers : ℚ)
        let booking : Booking :=
          { bid := db.next_bid, user_id := uid, package_id := package_id,
            travel_date := f.travel_date,
            number_of_travelers := f.number_of_travelers,
            total_amount := total, status := BStatus.pending,
            special_requests := f.special_requests }
        ({ db with
            packages := updateBy TourPackage.pid package_id
              (fun p => { p with available_slots :=
                p.available_slots - (f.number_of_travelers : Int) }) db.packages,
            bookings := db.bookings ++ [booking],
            next_bid := db.next_bid + 1 },
         Outcome.success)
    else (db, Outcome.validationError)

/-- Body of the `cancel_booking` route after `login_required` (src/app.py:435-481):
fetch the booking or 404; reject a requester other than the booking's owner;
reject a non-pending booking; otherwise set the status to `'cancelled'` and
add `booking.number_of_travelers` back to the package's `available_slots`,
committing both together. -/
def cancel_booking_core (db : DB) (uid : Nat) (booking_id : Nat) :
    DB × Outcome :=
  match findBy Booking.bid booking_id db.bookings with
  | none => (db, Outcome.notFound)
  | some booking =>
    if booking.user_id != uid then (db, Outcome.unauthorized)
    else if booking.status != BStatus.pending then (db, Outcome.invalidState)
    else
      ({ db with
          bookings := updateBy Booking.bid booking_id
            (fun b => { b with status := BStatus.cancelled }) db.bookings,
          packages := updateBy TourPackage.pid booking.package_id
            (fun p => { p with available_slots :=
              p.available_slots + (booking.number_of_travelers : Int) })
            db.packages },
       Outcome.success)

/-- Body of the `approve_booking` route after `admin_required` (src/app.py:566-603):
fetch the booking or 404; reject a non-pending booking; otherwise set the
status to `'confirmed'`. No package row is touched. -/
def approve_booking_core (db : DB) (booking_id : Nat) : DB × Outcome :=
  match findBy Booking.bid booking_id db.bookings with
  | none => (db, Outcome.notFound)
  | some booking =>
    if booking.status != BStatus.pending then (db, Outcome.invalidState)
    else
      ({ db with
          bookings := updateBy Booking.bid booking_id
            (fun b => { b with status := BStatus.confirmed }) db.bookings },
       Outcome.success)

/-- Body of the `reject_booking` route after `admin_required` (src/app.py:606-648):
fetch the booking or 404; reject a non-pending booking; otherwise set the
status to `'cancelled'` and restore the package's `available_slots` by
`booking.number_of_travelers`, committing both together. -/
def reject_booking_core (db : DB) (booking_id : Nat) : DB × Outcome :=
  match findBy Booking.bid booking_id db.bookings with
  | none => (db, Outcome.notFound)
  | some booking =>
    if booking.status != BStatus.pending then (db, Outcome.invalidState)
    else
      ({ db with
          bookings := updateBy Booking.bid booking_id
            (fun b => { b with status := BStatus.cancelled }) db.bookings,
          packages := updateBy TourPackage.pid booking.package_id
            (fun p => { p with available_slots :=
              p.available_slots + (booking.number_of_travelers : Int) })
            db.packages },
       Outcome.success)

/-- A `TourPackage` row built from a validated `PackageForm` submission, as
in `add_package` (src/app.py:669-710). -/
def packageOfForm (k : Nat) (f : PackageFormData) : TourPackage :=
  { pid := k, name := f.name, destination := f.destination,
    description := f.description, duration := f.duration, price := f.price,
    image_url := f.image_url, available_slots := f.available_slots,
    category := f.category, highlights := f.highlights,
    includes := f.includes, excludes := f.excludes }

/-- Body of the `add_package` route after `admin_required` (src/app.py:669-710):
if the form validates, insert the new package row; otherwise re-render the
form with no database change. -/
def add_package_core (db : DB) (f : PackageFormData) : DB × Outcome :=
  if validatePackageForm f then
    ({ db with
        packages := db.packages ++ [packageOfForm db.next_pid f],
        next_pid := db.next_pid + 1 },
     Outcome.success)
  else (db, Outcome.validationError)

/-- Body of the `edit_package` route after `admin_required` (src/app.py:713-755):
fetch the package or 404; if the form validates, overwrite every editable
field of the row; otherwise re-render with no database change. -/
def edit_package_core (db : DB) (package_id : Nat) (f : PackageFormData) :
    DB × Outcome :=
  match findBy TourPackage.pid package_id db.packages with
  | none => (db, Outcome.notFound)
  | some _ =>
    if validatePackageForm f then
      ({ db with
          packages := updateBy TourPackage.pid package_id
            (fun p => { p with
              name := f.name, destination := f.destination,
              description := f.description, duration := f.duration,
              price := f.price, available_slots := f.available_slots,
              category := f.category, image_url := f.image_url,
              highlights := f.highlights, includes := f.includes,
              excludes := f.excludes }) db.packages },
       Outcome.success)
    else (db, Outcome.validationError)

/-- Body of the `delete_package` route after `admin_required` (src/app.py:758-793):
fetch the package or 404; count the bookings of this package with status
`'confirmed'` and refuse the deletion when there are any; otherwise delete
the package row, which cascades (models.py:131, `cascade='all,
delete-orphan'`) to every booking row referencing it. -/
def delete_package_core (db : DB) (package_id : Nat) : DB × Outcome :=
  match findBy TourPackage.pid package_id db.packages with
  | none => (db, Outcome.notFound)
  | some _ =>
    let confirmed_bookings :=
      (db.bookings.filter (fun b =>
        b.package_id == package_id && b.status == BStatus.confirmed)).length
    if 0 < confirmed_bookings then (db, Outcome.conflict)
    else
      ({ db with
          packages := db.packages.filter (fun p => !(p.pid == package_id)),
          bookings := db.bookings.filter (fun b => !(b.package_id == package_id)) },
       Outcome.success)

/-! ## Access gates (src/app.py:52-101) -/

/-- The `login_required` decorator (src/app.py:52-79): a request with no
`user_id` in the session is redirected to the login page before the route
body runs; otherwise the body runs with the session's user id. -/
def login_required (db : DB) (sess : Option Nat) (body : Nat → DB × Outcome) :
    DB × Outcome :=
  match sess with
  | none => (db, Outcome.redirectLogin)
  | some uid => body uid

/-- The `admin_required` decorator (src/app.py:82-101): a request with no
`user_id` in the session is redirected to the login page; a session user
that does not exist or whose role is not `'admin'` is turned away; only then
does the route body run. -/
def admin_required (db : DB) (sess : Option Nat) (body : DB × Outcome) :
    DB × Outcome :=
  match sess with
  | none => (db, Outcome.redirectLogin)
  | some uid =>
    match findBy User.uid uid db.users with
    | some u => if u.role == Role.admin then body else (db, Outcome.forbidden)
    | none => (db, Outcome.forbidden)

/-- The `book_package` route with its `login_required` gate. -/
def book_package (db : DB) (sess : Option Nat) (package_id : Nat)
    (f : BookingFormData) (today : Int) : DB × Outcome :=
  login_required db sess (fun uid => book_package_core db uid package_id f today)

/-- The `cancel_booking` route with its `login_required` gate. -/
def cancel_booking (db : DB) (sess : Option Nat) (booking_id : Nat) :
    DB × Outcome :=
  login_required db sess (fun uid => cancel_booking_core db uid booking_id)

/-- The `approve_booking` route with its `admin_required` gate. -/
def approve_booking (db : DB) (sess : Option Nat) (booking_id : Nat) :
    DB × Outcome :=
  admin_required db sess (approve_booking_core db booking_id)

/-- The `reject_booking` route with its `admin_required` gate. -/
def reject_booking (db : DB) (sess : Option Nat) (booking_id : Nat) :
    DB × Outcome :=
  admin_required db sess (reject_booking_core db booking_id)

/-- The `add_package` route with its `admin_required` gate. -/
def add_package (db : DB) (sess : Option Nat) (f : PackageFormData) :
    DB × Outcome :=
  admin_required db sess (add_package_core db f)

/-- The `edit_package` route with its `admin_required` gate. -/
def edit_package (db : DB) (sess : Option Nat) (package_id : Nat)
    (f : PackageFormData) : DB × Outcome :=
  admin_required db sess (edit_package_core db package_id f)

/-- The `delete_package` route with its `admin_required` gate. -/
def delete_package (db : DB) (sess : Option Nat) (package_id : Nat) :
    DB × Outcome :=
  admin_required db sess (delete_package_core db package_id)

/-! ## Derived state predicates -/

/-- The catalog invariant of the spec: no package has negative slots. -/
def SlotsInv (db : DB) : Prop :=
  ∀ p ∈ db.packages, 0 ≤ p.available_slots

/-- A session holds the admin capability when its `user_id` names an
existing user whose role is `'admin'` (src/app.py:82-101). -/
def isAdminSess (db : DB) (sess : Option Nat) : Bool :=
  match sess with
  | none => false
  | some uid =>
    match findBy User.uid uid db.users with
    | some u => u.role == Role.admin
    | none => false

/-- The claim's filter contract as one conjunctive predicate, following the
spec's words: each provided filter constrains (keyword by case-insensitive
*substring* match against name OR destination, category by equality, price
by the inclusive range, the duration buckets by their inclusive integer
ranges with 15+ meaning at least 15), and an absent filter imposes no
constraint. -/
def matchesFiltersSpec (f : PackageSearchFormData) (p : TourPackage) :
    Bool :=
  (f.keyword == [] ||
    (ciSubstr p.name f.keyword || ciSubstr p.destination f.keyword)) &&
  (f.category == [] || p.category == f.category) &&
  (match f.min_price with
    | some m => decide (m ≤ p.price)
    | none => true) &&
  (match f.max_price with
    | some m => decide (p.price ≤ m)
    | none => true) &&
  (if f.duration == "1-3".toList then
    decide (1 ≤ p.duration) && decide (p.duration ≤ 3)
  else if f.duration == "4-7".toList then
    decide (4 ≤ p.duration) && decide (p.duration ≤ 7)
  else if f.duration == "8-14".toList then
    decide (8 ≤ p.duration) && decide (p.duration ≤ 14)
  else if f.duration == "15+".toList then
    decide (15 ≤ p.duration)
  else true)

/-- The amended filter contract: identical to `matchesFiltersSpec` except
that the keyword conjunct is the route's actual test — a case-insensitive
SQL `LIKE` match of `%keyword%` against name OR destination, in which `%`
and `_` inside the keyword act as SQL wildcards (the keyword reaches the
pattern unescaped). -/
def matchesFiltersLike (f : PackageSearchFormData) (p : TourPackage) :
    Bool :=
  (f.keyword == [] ||
    (ciLike p.name f.keyword || ciLike p.destination f.keyword)) &&
  (f.category == [] || p.category == f.category) &&
  (match f.min_price with
    | some m => decide (m ≤ p.price)
    | none => true) &&
  (match f.max_price with
    | some m => decide (p.price ≤ m)
    | none => true) &&
  (if f.duration == "1-3".toList then
    decide (1 ≤ p.duration) && decide (p.duration ≤ 3)
  else if f.duration == "4-7".toList then
    decide (4 ≤ p.duration) && decide (p.duration ≤ 7)
  else if f.duration == "8-14".toList then
    decide (8 ≤ p.duration) && decide (p.duration ≤ 14)
  else if f.duration == "15+".toList then
    decide (15 ≤ p.duration)
  else true)

/-! ## Sample rows (after `init_db`, src/app.py:819-967) used as witnesses -/

/-- The admin account created by `init_db`. -/
def adminUser : User :=
  { uid := 1, username := "admin".toList, email := "admin@travel.com".toList,
    phone := "1234567890".toList, role := Role.admin }

/-- A registered regular user. -/
def alice : User :=
  { uid := 2, username := "alice".toList, email := "alice@example.com".toList,
    phone := "9800000000".toList, role := Role.user }

/-- A second registered regular user. -/
def bob : User :=
  { uid := 3, username := "bob".toList, email := "bob@example.com".toList,
    phone := "9811111111".toList, role := Role.user }

/-- The first sample package of `init_db` (price 15000, 25 slots). -/
def samplePackage : TourPackage :=
  { pid := 1, name := "Pokhara Adventure Trek".toList,
    destination := "Pokhara".toList,
    description := "Experience the breathtaking beauty of Pokhara.".toList,
    duration := 5, price := 15000, image_url := [],
    available_slots := 25, category := "Adventure".toList,
    highlights := [], includes := [], excludes := [] }

/-- A fresh state: three users, one package, no bookings. -/
def sampleDB : DB :=
  { users := [adminUser, alice, bob], packages := [samplePackage],
    bookings := [], next_pid := 2, next_bid := 1 }

/-- A valid booking request: 5 travelers, travel on day 7. -/
def sampleBookingForm : BookingFormData :=
  { travel_date := 7, number_of_travelers := 5, special_requests := [] }

/-- A booking already confirmed by the admin (5 travelers by alice). -/
def confirmedBooking : Booking :=
  { bid := 1, user_id := 2, package_id := 1, travel_date := 7,
    number_of_travelers := 5, total_amount := 75000,
    status := BStatus.confirmed, special_requests := [] }

/-- A booking still pending (3 travelers by alice). -/
def pendingBooking : Booking :=
  { bid := 2, user_id := 2, package_id := 1, travel_date := 9,
    number_of_travelers := 3, total_amount := 45000,
    status := BStatus.pending, special_requests := [] }

/-- The sample state after both bookings: 25 - 5 - 3 = 17 slots left. -/
def bookedDB : DB :=
  { users := [adminUser, alice, bob],
    packages := [{ samplePackage with available_slots := 17 }],
    bookings := [confirmedBooking, pendingBooking],
    next_pid := 2, next_bid := 3 }

/-- The sample state with the first booking cancelled instead of
confirmed: no confirmed booking references the package. -/
def pendingOnlyDB : DB :=
  { bookedDB with bookings :=
      [{ confirmedBooking with status := BStatus.cancelled }, pendingBooking] }

/-- A valid package form (the Everest sample package of `init_db`). -/
def samplePackageForm : PackageFormData :=
  { name := "Everest Base Camp Luxury Trek".toList,
    destination := "Everest Region".toList,
    description := "Luxury trekking experience to Everest Base Camp.".toList,
    duration := 14, price := 85000, available_slots := 15,
    category := "Luxury".toList, image_url := [], highlights := [],
    includes := [], excludes := [] }

/-- A booking request whose travel date equals the current date. -/
def sameDayForm : BookingFormData :=
  { travel_date := 0, number_of_travelers := 2, special_requests := [] }

/-- A package whose name the wildcard keyword below matches via `LIKE`
but not via substring containment. -/
def abcPackage : TourPackage :=
  { pid := 1, name := "abc".toList, destination := "xyz".toList,
    description := "A short trip around the valley rim.".toList,
    duration := 3, price := 100, image_url := [],
    available_slots := 5, category := "Beach".toList,
    highlights := [], includes := [], excludes := [] }

/-- A one-package catalog for the keyword-wildcard counterexample. -/
def likeDB : DB :=
  { users := [], packages := [abcPackage], bookings := [],
    next_pid := 2, next_bid := 1 }

/-- A search whose keyword contains the SQL single-character wildcard. -/
def wildcardFilter : PackageSearchFormData :=
  { keyword := "a_c".toList, category := [], min_price := none,
    max_price := none, duration := [] }

/-! ## Helper lemmas about the row primitives -/

theorem findBy_updateBy_self {α : Type} (key : α → Nat) (k : Nat) (f : α → α)
    (hf : ∀ x, key (f x) = key x) (l : List α) :
    findBy key k (updateBy key k f l) = (findBy key k l).map f := by
  induction l with
  | nil => rfl
  | cons x t ih =>
    simp only [updateBy, findBy]
    by_cases h : key x = k
    · simp [findBy, h, hf]
    · simp [findBy, h, hf, ih]

theorem findBy_updateBy_of_ne {α : Type} (key : α → Nat) {k k' : Nat}
    (f : α → α) (hf : ∀ x, key (f x) = key x) (h : k' ≠ k) (l : List α) :
    findBy key k' (updateBy key k f l) = findBy key k' l := by
  induction l with
  | nil => rfl
  | cons x t ih =>
    simp only [updateBy, findBy]
    by_cases hx : key x = k
    · simp [findBy, hx, hf, Ne.symm h]
    · simp [findBy, hx, ih]

theorem updateBy_of_findBy_none {α : Type} (key : α → Nat) (k : Nat)
    (f : α → α) (l : List α) (h : findBy key k l = none) :
    updateBy key k f l = l := by
  induction l with
  | nil => rfl
  | cons x t ih =>
    simp only [findBy] at h
    by_cases hx : key x = k
    · simp [hx] at h
    · simp only [updateBy]
      rw [if_neg (by simpa using hx), ih (by simpa [hx] using h)]

theorem mem_updateBy_of_findBy {α : Type} (key : α → Nat) (k : Nat)
    (f : α → α) (l : List α) {P y : α}
    (h : findBy key k l = some P) (hy : y ∈ updateBy key k f l) :
    y = f P ∨ y ∈ l := by
  induction l with
  | nil => simp [updateBy] at hy
  | cons x t ih =>
    simp only [findBy] at h
    by_cases hx : key x = k
    · simp only [hx, beq_self_eq_true, if_true] at h
      simp only [updateBy, hx, beq_self_eq_true, if_true, List.mem_cons] at hy
      rcases hy with hy | hy
      · exact Or.inl (by rw [hy, Option.some_inj.mp h])
      · exact Or.inr (List.mem_cons_of_mem x hy)
    · rw [if_neg (by simpa using hx)] at h
      simp only [updateBy] at hy
      rw [if_neg (by simpa using hx)] at hy
      rcases List.mem_cons.mp hy with hy | hy
      · exact Or.inr (by simp [hy])
      · rcases ih h hy with h' | h'
        · exact Or.inl h'
        · exact Or.inr (List.mem_cons_of_mem x h')

theorem findBy_append {α : Type} (key : α → Nat) (k : Nat) (l₁ l₂ : List α)
    (h : ∀ x ∈ l₁, key x ≠ k) :
    findBy key k (l₁ ++ l₂) = findBy key k l₂ := by
  induction l₁ with
  | nil => rfl
  | cons x t ih =>
    simp only [List.cons_append, findBy]
    rw [if_neg (by simpa using h x (List.mem_cons_self x t))]
    exact ih (fun y hy => h y (List.mem_cons_of_mem x hy))

theorem findBy_mem {α : Type} (key : α → Nat) (k : Nat) {l : List α}
    {P : α} (h : findBy key k l = some P) : P ∈ l ∧ key P = k := by
  induction l with
  | nil => simp [findBy] at h
  | cons x t ih =>
    simp only [findBy] at h
    by_cases hx : key x = k
    · simp only [hx, beq_self_eq_true, if_true] at h
      have hPx : x = P := Option.some_inj.mp h
      exact ⟨by simp [← hPx], by rw [← hPx, hx]⟩
    · rw [if_neg (by simpa using hx)] at h
      obtain ⟨hmem, hkey⟩ := ih h
      exact ⟨List.mem_cons_of_mem x hmem, hkey⟩

/-! ## Helper lemmas about validation, the gates and filters -/

/-- A helper for the validation hypotheses of the booking form. -/
theorem validateBookingForm_true {f : BookingFormData} {today : Int}
    (hfut : ¬ f.travel_date < today) (h1 : 1 ≤ f.number_of_travelers)
    (h50 : f.number_of_travelers ≤ 50)
    (hsr : f.special_requests.length ≤ 500) :
    validateBookingForm f today = true := by
  simp [validateBookingForm, h1, h50, hsr, hfut, Nat.pos_iff_ne_zero.mp h1]

/-- A validated package form carries a nonnegative slot count. -/
theorem validatePackageForm_slots_nonneg {f : PackageFormData}
    (hval : validatePackageForm f = true) : 0 ≤ f.available_slots := by
  simp only [validatePackageForm, Bool.and_eq_true, decide_eq_true_eq] at hval
  tauto

theorem slotsInv_book_package_core (db : DB) (uid package_id : Nat)
    (f : BookingFormData) (today : Int) (h : SlotsInv db) :
    SlotsInv (book_package_core db uid package_id f today).1 := by
  cases hfind : findBy TourPackage.pid package_id db.packages with
  | none => simpa [book_package_core, hfind] using h
  | some P =>
    by_cases hval : validateBookingForm f today = true
    · by_cases hguard : P.available_slots < (f.number_of_travelers : Int)
      · simpa [book_package_core, hfind, hval, if_pos hguard] using h
      · simp only [book_package_core, hfind, hval, if_true, if_neg hguard]
        intro p hp
        rcases mem_updateBy_of_findBy _ _ _ _ hfind hp with hcase | hcase
        · rw [hcase]
          exact sub_nonneg.mpr (not_lt.mp hguard)
        · exact h p hcase
    · simpa [book_package_core, hfind, hval] using h

theorem slotsInv_restore (db : DB) (package_id : Nat) (n : Nat)
    (h : SlotsInv db) (p : TourPackage)
    (hp : p ∈ updateBy TourPackage.pid package_id
      (fun q => { q with available_slots :=
        q.available_slots + (n : Int) }) db.packages) :
    0 ≤ p.available_slots := by
  cases hfind : findBy TourPackage.pid package_id db.packages with
  | none =>
    rw [updateBy_of_findBy_none _ _ _ _ hfind] at hp
    exact h p hp
  | some Q =>
    rcases mem_updateBy_of_findBy _ _ _ _ hfind hp with hcase | hcase
    · rw [hcase]
      exact add_nonneg (h Q (findBy_mem _ _ hfind).1) (Int.ofNat_nonneg _)
    · exact h p hcase

theorem slotsInv_cancel_booking_core (db : DB) (uid booking_id : Nat)
    (h : SlotsInv db) : SlotsInv (cancel_booking_core db uid booking_id).1 := by
  cases hfind : findBy Booking.bid booking_id db.bookings with
  | none => simpa [cancel_booking_core, hfind] using h
  | some b =>
    by_cases hu : (b.user_id != uid) = true
    · simpa [cancel_booking_core, hfind, hu] using h
    · by_cases hs : (b.status != BStatus.pending) = true
      · simpa [cancel_booking_core, hfind, hu, hs] using h
      · simp only [cancel_booking_core, hfind, hu, hs, Bool.false_eq_true,
          if_false, ite_false]
        exact fun p hp => slotsInv_restore db b.package_id
          b.number_of_travelers h p hp

theorem slotsInv_reject_booking_core (db : DB) (booking_id : Nat)
    (h : SlotsInv db) : SlotsInv (reject_booking_core db booking_id).1 := by
  cases hfind : findBy Booking.bid booking_id db.bookings with
  | none => simpa [reject_booking_core, hfind] using h
  | some b =>
    by_cases hs : (b.status != BStatus.pending) = true
    · simpa [reject_booking_core, hfind, hs] using h
    · simp only [reject_booking_core, hfind, hs, Bool.false_eq_true,
        if_false, ite_false]
      exact fun p hp => slotsInv_restore db b.package_id
        b.number_of_travelers h p hp

theorem slotsInv_approve_booking_core (db : DB) (booking_id : Nat)
    (h : SlotsInv db) : SlotsInv (approve_booking_core db booking_id).1 := by
  cases hfind : findBy Booking.bid booking_id db.bookings with
  | none => simpa [approve_booking_core, hfind] using h
  | some b =>
    by_cases hs : (b.status != BStatus.pending) = true
    · simpa [approve_booking_core, hfind, hs] using h
    · simpa [approve_booking_core, hfind, hs] using h

theorem slotsInv_add_package_core (db : DB) (f : PackageFormData)
    (h : SlotsInv db) : SlotsInv (add_package_core db f).1 := by
  by_cases hval : validatePackageForm f = true
  · simp only [add_package_core, hval, if_true]
    intro p hp
    rcases List.mem_append.mp hp with hp | hp
    · exact h p hp
    · rw [List.mem_singleton.mp hp]
      exact validatePackageForm_slots_nonneg hval
  · simpa [add_package_core, hval] using h

theorem slotsInv_edit_package_core (db : DB) (package_id : Nat)
    (f : PackageFormData) (h : SlotsInv db) :
    SlotsInv (edit_package_core db package_id f).1 := by
  cases hfind : findBy TourPackage.pid package_id db.packages with
  | none => simpa [edit_package_core, hfind] using h
  | some P =>
    by_cases hval : validatePackageForm f = true
    · simp only [edit_package_core, hfind, hval, if_true]
      intro p hp
      rcases mem_updateBy_of_findBy _ _ _ _ hfind hp with hcase | hcase
      · rw [hcase]
        exact validatePackageForm_slots_nonneg hval
      · exact h p hcase
    · simpa [edit_package_core, hfind, hval] using h

theorem slotsInv_admin_required (db : DB) (sess : Option Nat)
    (body : DB × Outcome) (h : SlotsInv db) (hbody : SlotsInv body.1) :
    SlotsInv (admin_required db sess body).1 := by
  cases sess with
  | none => exact h
  | some uid =>
    simp only [admin_required]
    cases findBy User.uid uid db.users with
    | none => exact h
    | some u =>
      by_cases hrole : (u.role == Role.admin) = true
      · simpa [hrole] using hbody
      · simpa [hrole] using h

theorem admin_required_not_admin (db : DB) (sess : Option Nat)
    (body : DB × Outcome) (h : isAdminSess db sess = false) :
    admin_required db sess body = (db, Outcome.redirectLogin) ∨
    admin_required db sess body = (db, Outcome.forbidden) := by
  cases sess with
  | none => exact Or.inl rfl
  | some uid =>
    simp only [isAdminSess] at h
    simp only [admin_required]
    cases hu : findBy User.uid uid db.users with
    | none => exact Or.inr rfl
    | some u =>
      rw [hu] at h
      have h' : (u.role == Role.admin) = false := h
      right
      simp [h']

theorem bool_ite_filter {α : Type} (c : Bool) (p : α → Bool) (l : List α) :
    (if c then l.filter p else l) = l.filter (fun x => !c || p x) := by
  cases c <;> simp

theorem chain_stage {α : Type} (c0 c1 c2 c3 c4 : Bool)
    (p1 p2 p3 p4 : α → Bool) (l : List α)
    (hc : c0 = false →
      c1 = false ∧ c2 = false ∧ c3 = false ∧ c4 = false) :
    (if c0 then
      if c1 then l.filter p1
      else if c2 then l.filter p2
      else if c3 then l.filter p3
      else if c4 then l.filter p4
      else l
    else l) =
    l.filter (fun x =>
      if c1 then p1 x else if c2 then p2 x else if c3 then p3 x
      else if c4 then p4 x else true) := by
  cases c0
  · obtain ⟨e1, e2, e3, e4⟩ := hc rfl
    subst e1; subst e2; subst e3; subst e4
    simp
  · cases c1
    · cases c2
      · cases c3
        · cases c4 <;> simp
        · simp
      · simp
    · simp

/-! ## The claims -/

/-- C1: for every package and valid booking request (future travel date,
1..50 travelers), when the travelers fit in the available slots the
creation succeeds, records a pending booking whose total amount is
price times travelers, and decrements the slots by exactly the traveler
count; when the travelers exceed the available slots it fails with
insufficient inventory and neither the package nor the bookings change. -/
theorem booking_create_spec (db : DB) (uid package_id : Nat) (P : TourPackage)
    (f : BookingFormData) (today : Int)
    (hP : findBy TourPackage.pid package_id db.packages = some P)
    (hfut : today < f.travel_date)
    (h1 : 1 ≤ f.number_of_travelers) (h50 : f.number_of_travelers ≤ 50)
    (hsr : f.special_requests.length ≤ 500) :
    ((f.number_of_travelers : Int) ≤ P.available_slots →
      (book_package_core db uid package_id f today).2 = Outcome.success ∧
      findBy TourPackage.pid package_id
          (book_package_core db uid package_id f today).1.packages =
        some { P with available_slots :=
          P.available_slots - (f.number_of_travelers : Int) } ∧
      (book_package_core db uid package_id f today).1.bookings =
        db.bookings ++
          [{ bid := db.next_bid, user_id := uid, package_id := package_id,
             travel_date := f.travel_date,
             number_of_travelers := f.number_of_travelers,
             total_amount := P.price * (f.number_of_travelers : ℚ),
             status := BStatus.pending,
             special_requests := f.special_requests }]) ∧
    (P.available_slots < (f.number_of_travelers : Int) →
      book_package_core db uid package_id f today =
        (db, Outcome.insufficientInventory)) := by
  have hval : validateBookingForm f today = true :=
    validateBookingForm_true (not_lt.mpr (le_of_lt hfut)) h1 h50 hsr
  constructor
  · intro hle
    have hguard : ¬ (P.available_slots < (f.number_of_travelers : Int)) :=
      not_lt.mpr hle
    have hfind := findBy_updateBy_self TourPackage.pid package_id
      (fun p => { p with available_slots :=
        p.available_slots - (f.number_of_travelers : Int) }) (fun x => rfl)
      db.packages
    rw [hP] at hfind
    simp only [book_package_core, hP, hval, if_true, if_neg hguard, hfind,
      Option.map_some']
    exact ⟨trivial, trivial, trivial⟩
  · intro hlt
    simp only [book_package_core, hP, hval, if_true, if_pos hlt]

/-- Witness for C1: alice books 5 of the 25 slots successfully. -/
theorem booking_create_spec_witness :
    (book_package_core sampleDB 2 1 sampleBookingForm 0).2 =
      Outcome.success :=
  ((booking_create_spec sampleDB 2 1 samplePackage sampleBookingForm 0
    (by decide) (by decide) (by decide) (by decide) (by decide)).1
      (by decide)).1

/-- C2: a booking created and then cancelled by its owner while pending
restores the package slot count to its value before the creation. -/
theorem booking_roundtrip_spec (db : DB) (uid package_id : Nat)
    (P : TourPackage) (f : BookingFormData) (today : Int)
    (hP : findBy TourPackage.pid package_id db.packages = some P)
    (hfut : today < f.travel_date)
    (h1 : 1 ≤ f.number_of_travelers) (h50 : f.number_of_travelers ≤ 50)
    (hsr : f.special_requests.length ≤ 500)
    (hle : (f.number_of_travelers : Int) ≤ P.available_slots)
    (hfresh : ∀ b ∈ db.bookings, b.bid ≠ db.next_bid) :
    (findBy TourPackage.pid package_id
        ((cancel_booking_core
            (book_package_core db uid package_id f today).1 uid
            db.next_bid).1).packages).map TourPackage.available_slots =
      some P.available_slots := by
  have hval : validateBookingForm f today = true :=
    validateBookingForm_true (not_lt.mpr (le_of_lt hfut)) h1 h50 hsr
  have hguard : ¬ (P.available_slots < (f.number_of_travelers : Int)) :=
    not_lt.mpr hle
  simp only [book_package_core, hP, hval, if_true, if_neg hguard]
  simp only [cancel_booking_core]
  rw [findBy_append Booking.bid db.next_bid db.bookings _ hfresh]
  simp only [findBy, beq_self_eq_true, if_true, bne_self_eq_false,
    Bool.false_eq_true, if_false, ite_false]
  rw [findBy_updateBy_self TourPackage.pid package_id
    (fun p => { p with available_slots :=
      p.available_slots + (f.number_of_travelers : Int) }) (fun x => rfl)]
  rw [findBy_updateBy_self TourPackage.pid package_id
    (fun p => { p with available_slots :=
      p.available_slots - (f.number_of_travelers : Int) }) (fun x => rfl)]
  rw [hP]
  simp [Int.sub_add_cancel]

/-- Witness for C2: after booking and cancelling, the 25 slots are back. -/
theorem booking_roundtrip_spec_witness :
    (findBy TourPackage.pid 1
        ((cancel_booking_core
            (book_package_core sampleDB 2 1 sampleBookingForm 0).1 2
            1).1).packages).map
      TourPackage.available_slots = some samplePackage.available_slots :=
  booking_roundtrip_spec sampleDB 2 1 samplePackage sampleBookingForm 0
    (by decide) (by decide) (by decide) (by decide) (by decide) (by decide)
    (by decide)

/-- C3: all six state-changing operations (package create and edit,
booking create, cancel, approve, reject) preserve the invariant that
every package has a nonnegative slot count, whatever their input. -/
theorem slots_invariant_preserved (db : DB) (h : SlotsInv db) :
    (∀ sess f, SlotsInv (add_package db sess f).1) ∧
    (∀ sess package_id f, SlotsInv (edit_package db sess package_id f).1) ∧
    (∀ sess package_id f today,
      SlotsInv (book_package db sess package_id f today).1) ∧
    (∀ sess booking_id, SlotsInv (cancel_booking db sess booking_id).1) ∧
    (∀ sess booking_id, SlotsInv (approve_booking db sess booking_id).1) ∧
    (∀ sess booking_id, SlotsInv (reject_booking db sess booking_id).1) := by
  refine ⟨?_, ?_, ?_, ?_, ?_, ?_⟩
  · intro sess f
    exact slotsInv_admin_required _ _ _ h (slotsInv_add_package_core db f h)
  · intro sess package_id f
    exact slotsInv_admin_required _ _ _ h
      (slotsInv_edit_package_core db package_id f h)
  · intro sess package_id f today
    cases sess with
    | none => exact h
    | some uid => exact slotsInv_book_package_core db uid package_id f today h
  · intro sess booking_id
    cases sess with
    | none => exact h
    | some uid => exact slotsInv_cancel_booking_core db uid booking_id h
  · intro sess booking_id
    exact slotsInv_admin_required _ _ _ h
      (slotsInv_approve_booking_core db booking_id h)
  · intro sess booking_id
    exact slotsInv_admin_required _ _ _ h
      (slotsInv_reject_booking_core db booking_id h)

/-- Witness for C3 at the sample state. -/
theorem slots_invariant_preserved_witness :
    SlotsInv (cancel_booking bookedDB (some 2) 2).1 :=
  (slots_invariant_preserved bookedDB
    (by unfold SlotsInv; decide)).2.2.2.1 (some 2) 2

/-- C4 counterexample: on a non-pending booking, cancel invoked by a
requester other than the owner fails with Unauthorized, not InvalidState. -/
theorem cancel_nonpending_not_invalidState :
    (findBy Booking.bid 1 bookedDB.bookings).map Booking.status =
      some BStatus.confirmed ∧
    (cancel_booking_core bookedDB 3 1).2 = Outcome.unauthorized ∧
    (cancel_booking_core bookedDB 3 1).2 ≠ Outcome.invalidState := by
  decide

/-- C4 (amended): cancel and reject on a non-pending booking fail — with
InvalidState when the caller is authorized (the owner for cancel, any
caller for reject) — and never change the state; an owner cancel of a
pending booking sets it to cancelled and restores the slots by exactly
the booking's traveler count. -/
theorem cancel_reject_spec (db : DB) (uid booking_id : Nat) (b : Booking)
    (hb : findBy Booking.bid booking_id db.bookings = some b) :
    (b.status ≠ BStatus.pending →
      (b.user_id = uid →
        cancel_booking_core db uid booking_id = (db, Outcome.invalidState)) ∧
      reject_booking_core db booking_id = (db, Outcome.invalidState) ∧
      (cancel_booking_core db uid booking_id).1 = db) ∧
    (b.status = BStatus.pending → b.user_id = uid →
      (cancel_booking_core db uid booking_id).2 = Outcome.success ∧
      (findBy Booking.bid booking_id
          (cancel_booking_core db uid booking_id).1.bookings).map
        Booking.status = some BStatus.cancelled ∧
      ∀ P, findBy TourPackage.pid b.package_id db.packages = some P →
        (findBy TourPackage.pid b.package_id
            (cancel_booking_core db uid booking_id).1.packages).map
          TourPackage.available_slots =
        some (P.available_slots + (b.number_of_travelers : Int))) := by
  constructor
  · intro hs
    have hsb : (b.status != BStatus.pending) = true := by
      simpa using hs
    refine ⟨?_, ?_, ?_⟩
    · intro hu
      have hub : (b.user_id != uid) = false := by simp [hu]
      simp [cancel_booking_core, hb, hub, hsb]
    · simp [reject_booking_core, hb, hsb]
    · by_cases hu : (b.user_id != uid) = true
      · simp [cancel_booking_core, hb, hu]
      · simp only [Bool.not_eq_true] at hu
        simp [cancel_booking_core, hb, hu, hsb]
  · intro hs hu
    have hub : (b.user_id != uid) = false := by simp [hu]
    have hsb : (b.status != BStatus.pending) = false := by simp [hs]
    simp only [cancel_booking_core, hb, hub, hsb, Bool.false_eq_true,
      if_false, ite_false]
    refine ⟨trivial, ?_, ?_⟩
    · rw [findBy_updateBy_self Booking.bid booking_id
        (fun x => { x with status := BStatus.cancelled }) (fun x => rfl), hb]
      rfl
    · intro P hP
      rw [findBy_updateBy_self TourPackage.pid b.package_id
        (fun p => { p with available_slots :=
          p.available_slots + (b.number_of_travelers : Int) })
        (fun x => rfl), hP]
      rfl

/-- Witness for C4 (amended): alice cancels her pending booking. -/
theorem cancel_reject_spec_witness :
    (cancel_booking_core bookedDB 2 2).2 = Outcome.success ∧
    (findBy Booking.bid 2 (cancel_booking_core bookedDB 2 2).1.bookings).map
      Booking.status = some BStatus.cancelled :=
  let h := (cancel_reject_spec bookedDB 2 2 pendingBooking (by decide)).2
    (by decide) (by decide)
  ⟨h.1, h.2.1⟩

/-- C5: approve confirms a pending booking without touching any package
row, and refuses a non-pending booking without changing anything. -/
theorem approve_spec (db : DB) (booking_id : Nat) (b : Booking)
    (hb : findBy Booking.bid booking_id db.bookings = some b) :
    (b.status = BStatus.pending →
      (approve_booking_core db booking_id).2 = Outcome.success ∧
      (findBy Booking.bid booking_id
          (approve_booking_core db booking_id).1.bookings).map
        Booking.status = some BStatus.confirmed ∧
      (approve_booking_core db booking_id).1.packages = db.packages) ∧
    (b.status ≠ BStatus.pending →
      approve_booking_core db booking_id = (db, Outcome.invalidState)) := by
  constructor
  · intro hs
    have hsb : (b.status != BStatus.pending) = false := by simp [hs]
    simp only [approve_booking_core, hb, hsb, Bool.false_eq_true,
      if_false, ite_false]
    refine ⟨trivial, ?_, trivial⟩
    rw [findBy_updateBy_self Booking.bid booking_id
      (fun x => { x with status := BStatus.confirmed }) (fun x => rfl), hb]
    rfl
  · intro hs
    have hsb : (b.status != BStatus.pending) = true := by simpa using hs
    simp [approve_booking_core, hb, hsb]

/-- Witness for C5: the admin approves alice's pending booking. -/
theorem approve_spec_witness :
    (approve_booking_core bookedDB 2).2 = Outcome.success ∧
    (findBy Booking.bid 2 (approve_booking_core bookedDB 2).1.bookings).map
      Booking.status = some BStatus.confirmed ∧
    (approve_booking_core bookedDB 2).1.packages = bookedDB.packages :=
  (approve_spec bookedDB 2 pendingBooking (by decide)).1 (by decide)

/-- C6: a cancel by an authenticated non-owner, and any admin route called
without the admin capability, fail and leave the stored state untouched. -/
theorem access_control_spec (db : DB) :
    (∀ uid booking_id b,
      findBy Booking.bid booking_id db.bookings = some b →
      b.user_id ≠ uid →
      cancel_booking db (some uid) booking_id = (db, Outcome.unauthorized)) ∧
    (∀ sess, isAdminSess db sess = false →
      ∀ booking_id package_id f,
        (approve_booking db sess booking_id = (db, Outcome.redirectLogin) ∨
          approve_booking db sess booking_id = (db, Outcome.forbidden)) ∧
        (reject_booking db sess booking_id = (db, Outcome.redirectLogin) ∨
          reject_booking db sess booking_id = (db, Outcome.forbidden)) ∧
        (add_package db sess f = (db, Outcome.redirectLogin) ∨
          add_package db sess f = (db, Outcome.forbidden)) ∧
        (edit_package db sess package_id f = (db, Outcome.redirectLogin) ∨
          edit_package db sess package_id f = (db, Outcome.forbidden)) ∧
        (delete_package db sess package_id = (db, Outcome.redirectLogin) ∨
          delete_package db sess package_id = (db, Outcome.forbidden))) := by
  constructor
  · intro uid booking_id b hb hne
    have hub : (b.user_id != uid) = true := by simpa using hne
    simp [cancel_booking, login_required, cancel_booking_core, hb, hub]
  · intro sess h booking_id package_id f
    exact ⟨admin_required_not_admin db sess _ h,
      admin_required_not_admin db sess _ h,
      admin_required_not_admin db sess _ h,
      admin_required_not_admin db sess _ h,
      admin_required_not_admin db sess _ h⟩

/-- Witness for C6: bob can neither cancel alice's booking nor approve one. -/
theorem access_control_spec_witness :
    cancel_booking bookedDB (some 3) 1 = (bookedDB, Outcome.unauthorized) ∧
    (approve_booking bookedDB (some 3) 2 = (bookedDB, Outcome.redirectLogin) ∨
      approve_booking bookedDB (some 3) 2 = (bookedDB, Outcome.forbidden)) :=
  ⟨(access_control_spec bookedDB).1 3 1 confirmedBooking (by decide)
      (by decide),
    ((access_control_spec bookedDB).2 (some 3) (by decide) 2 1
        samplePackageForm).1⟩

/-- C7: at the failing input `travel_date = today` the form validator
accepts the request (`validate_travel_date` only raises when
`travel_date < today`, src/forms.py:175-187) and a booking is created,
although the validator's own error message promises that the travel date
must lie in the future. -/
theorem same_day_travel_accepted :
    validateBookingForm sameDayForm 0 = true ∧
    (book_package_core sampleDB 2 1 sameDayForm 0).2 = Outcome.success ∧
    (book_package_core sampleDB 2 1 sameDayForm 0).1.bookings ≠
      sampleDB.bookings := by
  decide

/-- C8: deleting a package is refused with a conflict while a confirmed
booking references it; otherwise it removes the package together with every
booking referencing it and nothing else. -/
theorem delete_package_spec (db : DB) (package_id : Nat) (P : TourPackage)
    (hP : findBy TourPackage.pid package_id db.packages = some P) :
    ((∃ b ∈ db.bookings, b.package_id = package_id ∧
        b.status = BStatus.confirmed) →
      delete_package_core db package_id = (db, Outcome.conflict)) ∧
    ((∀ b ∈ db.bookings, b.package_id = package_id →
        b.status ≠ BStatus.confirmed) →
      (delete_package_core db package_id).2 = Outcome.success ∧
      (∀ p, p ∈ (delete_package_core db package_id).1.packages ↔
        p ∈ db.packages ∧ p.pid ≠ package_id) ∧
      (∀ b, b ∈ (delete_package_core db package_id).1.bookings ↔
        b ∈ db.bookings ∧ b.package_id ≠ package_id)) := by
  constructor
  · rintro ⟨b, hb, hpid, hst⟩
    have hne : db.bookings.filter (fun x =>
        x.package_id == package_id && x.status == BStatus.confirmed) ≠ [] := by
      rw [Ne, List.filter_eq_nil_iff]
      push_neg
      exact ⟨b, hb, by simp [hpid, hst]⟩
    have hpos : 0 < (db.bookings.filter (fun x =>
        x.package_id == package_id && x.status == BStatus.confirmed)).length :=
      List.length_pos.mpr hne
    simp [delete_package_core, hP, hpos]
  · intro h
    have hnil : db.bookings.filter (fun x =>
        x.package_id == package_id && x.status == BStatus.confirmed) = [] := by
      rw [List.filter_eq_nil_iff]
      intro b hb
      simp only [Bool.and_eq_true, beq_iff_eq, not_and]
      exact fun hpid => h b hb hpid
    simp only [delete_package_core, hP, hnil, List.length_nil,
      lt_irrefl, if_false, ite_false]
    refine ⟨trivial, ?_, ?_⟩
    · intro p
      simp [List.mem_filter]
    · intro b
      simp [List.mem_filter]

/-- Witness for C8: the delete is refused while the confirmed booking
exists, and succeeds when the bookings are only pending or cancelled. -/
theorem delete_package_spec_witness :
    delete_package_core bookedDB 1 = (bookedDB, Outcome.conflict) ∧
    (delete_package_core pendingOnlyDB 1).2 = Outcome.success :=
  ⟨(delete_package_spec bookedDB 1
        { samplePackage with available_slots := 17 } (by decide)).1
      ⟨confirmedBooking, by decide, by decide, by decide⟩,
    ((delete_package_spec pendingOnlyDB 1
        { samplePackage with available_slots := 17 } (by decide)).2
      (by decide)).1⟩

/-- C9 counterexample: the keyword `a_c` contains the SQL single-character
wildcard `_`, which stays live because the route interpolates the raw
keyword into the `LIKE` pattern unescaped (src/app.py:150); the route
therefore returns the package named `abc`, while the claim's
case-insensitive-substring contract excludes it, so the route's result is
not the substring-filtered list. -/
theorem packages_keyword_wildcard :
    packages likeDB wildcardFilter = [abcPackage] ∧
    likeDB.packages.filter (matchesFiltersSpec wildcardFilter) = [] ∧
    packages likeDB wildcardFilter ≠
      likeDB.packages.filter (matchesFiltersSpec wildcardFilter) := by
  decide

/-- C9 (amended): the route's successively narrowed query returns exactly
the packages satisfying the conjunction of the provided filters, with an
absent filter imposing no constraint — where the keyword filter is a
case-insensitive SQL `LIKE` match of `%keyword%` against name OR
destination in which `%` and `_` inside the keyword act as wildcards (the
keyword is interpolated unescaped); all other filters are as the claim
states them. -/
theorem packages_filter_like_spec (db : DB) (f : PackageSearchFormData) :
    packages db f = db.packages.filter (matchesFiltersLike f) := by
  obtain ⟨kw, cat, mn, mx, dur⟩ := f
  have hc : (dur != []) = false →
      (dur == "1-3".toList) = false ∧ (dur == "4-7".toList) = false ∧
      (dur == "8-14".toList) = false ∧ (dur == "15+".toList) = false := by
    intro h
    have hd : dur = [] := by simpa using h
    subst hd
    exact ⟨rfl, rfl, rfl, rfl⟩
  simp only [packages, matchesFiltersLike]
  cases mn <;> cases mx <;>
    · rw [bool_ite_filter, bool_ite_filter,
        chain_stage _ _ _ _ _ _ _ _ _ _ hc]
      simp only [List.filter_filter]
      apply List.filter_congr
      intro x _
      simp [matchesFiltersLike, bne, Bool.not_not, Bool.and_assoc,
        Bool.and_comm, Bool.and_left_comm]

/-- C10: a package form with price 0 or slot count 0 is rejected by
`DataRequired` (0 is falsy), so neither `add_package` nor `edit_package`
changes the database, even though the declared numeric ranges allow 0. -/
theorem zero_price_or_slots_rejected (db : DB) (package_id : Nat)
    (f : PackageFormData) (h : f.price = 0 ∨ f.available_slots = 0) :
    add_package_core db f = (db, Outcome.validationError) ∧
    (edit_package_core db package_id f).1 = db ∧
    (∀ P, findBy TourPackage.pid package_id db.packages = some P →
      edit_package_core db package_id f = (db, Outcome.validationError)) := by
  have hval : validatePackageForm f = false := by
    rcases h with h | h <;> simp [validatePackageForm, h]
  refine ⟨by simp [add_package_core, hval], ?_, ?_⟩
  · cases hfind : findBy TourPackage.pid package_id db.packages with
    | none => simp [edit_package_core, hfind]
    | some P => simp [edit_package_core, hfind, hval]
  · intro P hP
    simp [edit_package_core, hP, hval]

/-- Witness for C10: the Everest form with price zeroed out is rejected. -/
theorem zero_price_or_slots_rejected_witness :
    add_package_core sampleDB { samplePackageForm with price := 0 } =
      (sampleDB, Outcome.validationError) :=
  (zero_price_or_slots_rejected sampleDB 1
    { samplePackageForm with price := 0 } (Or.inl rfl)).1

end Portal
